import Mathlib

/-!
Shallow embedding of the client-side session manager and the request
orchestration pattern of the AI-TUTOR-PRO repository
(src/context/AuthContext.tsx, src/components/TutorComponent.tsx,
src/pages/Index.tsx), together with proofs about the spec claims.

Modelling conventions, used throughout:
* localStorage keys and optional JSON fields are `Option` values; `none`
  also stands for the falsy values (absent key, empty string, JSON null in
  a truthiness test), because the code only ever inspects them through JS
  truthiness.
* network calls are made explicit: each handler takes the outcome of its
  (at most one) fetch as an argument and returns the state(s) it produces
  together with the list of requests it issued.
* `React.useState` updates are modelled as record updates on an explicit
  state record; the asynchronous FileReader completion is folded into the
  handler that starts it.
-/

namespace AITutor

/-- A user object as the auth context stores it: name and email
(interface `User` in src/context/AuthContext.tsx). -/
structure User where
  name : String
  email : String
  deriving DecidableEq

/-- Abstraction of the raw string stored under the `user` localStorage key,
partitioned by what `JSON.parse` does with it: `fromUser u` stands for
`JSON.stringify` of the user object `u` (and, more generally, for any
string that `JSON.parse` maps to a non-null value, abstracted by the value
read back); `nullLit` stands for the literal string "null", on which
`JSON.parse` succeeds and returns `null`; `unparsable tag` stands for the
strings on which `JSON.parse` throws. -/
inductive StoredUser where
  | fromUser (u : User)
  | nullLit
  | unparsable (tag : Nat)
  deriving DecidableEq

/-- Result of running `JSON.parse` on a stored user string. -/
inductive ParseResult where
  | throwErr
  | nullVal
  | userVal (u : User)
  deriving DecidableEq

/-- Behaviour of `JSON.parse` on the abstracted stored strings. -/
def parseStoredUser : StoredUser → ParseResult
  | .fromUser u => .userVal u
  | .nullLit => .nullVal
  | .unparsable _ => .throwErr

/-- The three localStorage keys the session manager persists (`user`,
`token`, `isLoggedIn`).  `none` models an absent key, and also the falsy
empty string, which the code treats like an absent key. -/
structure Storage where
  user : Option StoredUser
  token : Option String
  isLoggedIn : Option String
  deriving DecidableEq

/-- The in-memory React state of `AuthProvider`. -/
structure AuthMem where
  user : Option User
  token : Option String
  isLoggedIn : Bool
  isLoading : Bool
  deriving DecidableEq

/-- In-memory state together with the persisted keys. -/
structure AuthState where
  mem : AuthMem
  store : Storage
  deriving DecidableEq

/-- The `useState` defaults of `AuthProvider`: user null, token null,
not logged in, loading true. -/
def authMem0 : AuthMem :=
  { user := none, token := none, isLoggedIn := false, isLoading := true }

/-- In-memory state after any clearing path: everything null or false and
loading finished. -/
def loggedOutMem : AuthMem :=
  { user := none, token := none, isLoggedIn := false, isLoading := false }

/-- The fully cleared session: the three keys removed, in-memory fields
null or false, loading finished. -/
def clearedAuthState : AuthState :=
  { mem := loggedOutMem
    store := { user := none, token := none, isLoggedIn := none } }

/-- The init useEffect of `AuthProvider` (AuthContext.tsx lines 42-63).
It reads the three keys; only when `isLoggedIn` is the string "true" and
both `user` and `token` are truthy does it attempt `JSON.parse` on the
stored user.  A parse result of a value populates the session (note that
the parsed value may be `null`, which is stored as the user unchecked); a
parse exception removes the three keys and clears the in-memory fields.
In every other key combination, storage is left untouched and the session
stays logged out.  `isLoading` always ends false. -/
def initAuth (st : Storage) : AuthState :=
  if st.isLoggedIn = some "true" then
    match st.user, st.token with
    | some su, some tk =>
      match parseStoredUser su with
      | .userVal u =>
        { mem := { user := some u, token := some tk, isLoggedIn := true, isLoading := false }
          store := st }
      | .nullVal =>
        { mem := { user := none, token := some tk, isLoggedIn := true, isLoading := false }
          store := st }
      | .throwErr => clearedAuthState
    | _, _ => { mem := loggedOutMem, store := st }
  else { mem := loggedOutMem, store := st }

/-- Parsed JSON body of the `/api/login` response.  A `none` field models
absence and every falsy value (empty token string, null user), which the
code treats identically through truthiness. -/
structure LoginBody where
  access_token : Option String
  user : Option User
  detail : Option String
  error : Option String
  deriving DecidableEq

/-- Outcome of the login fetch: either the fetch or `response.json()`
threw (`netError`, with the thrown message), or a response arrived with an
`ok` flag, an HTTP status, and a parsed body. -/
inductive LoginOutcome where
  | netError (msg : String)
  | reply (ok : Bool) (status : Nat) (body : LoginBody)
  deriving DecidableEq

/-- The message thrown by `login` on a failed reply (AuthContext.tsx
line 82): `data.detail`, else `data.error`, else the generic text. -/
def loginErrorMsg (status : Nat) (b : LoginBody) : String :=
  match b.detail with
  | some d => d
  | none =>
    match b.error with
    | some e => e
    | none => "Login failed (status " ++ toString status ++ ")"

/-- The `login` operation of `AuthProvider` (AuthContext.tsx lines
65-105), as a function of the fetch outcome.  On an ok reply carrying both
an access token and a user it writes the three keys and populates the
in-memory session; on every other outcome it removes the three keys,
clears the in-memory fields, and re-throws (modelled by `Except.error`).
The final state does not depend on the starting state. -/
def login (s : AuthState) (o : LoginOutcome) : AuthState × Except String Unit :=
  match s, o with
  | _, .netError msg => (clearedAuthState, .error msg)
  | _, .reply ok status body =>
    if ok then
      match body.access_token, body.user with
      | some tk, some u =>
        ({ mem := { user := some u, token := some tk, isLoggedIn := true, isLoading := false }
           store := { user := some (.fromUser u), token := some tk, isLoggedIn := some "true" } },
         .ok ())
      | _, _ => (clearedAuthState, .error (loginErrorMsg status body))
    else (clearedAuthState, .error (loginErrorMsg status body))

/-- The `logout` operation (AuthContext.tsx lines 107-118): removes the
three keys and clears the in-memory fields (it does not touch
`isLoading`). -/
def logout (s : AuthState) : AuthState :=
  { mem := { user := none, token := none, isLoggedIn := false, isLoading := s.mem.isLoading }
    store := { user := none, token := none, isLoggedIn := none } }

/-- Session invariant from section 3 of the spec: logged in implies user
and token present. -/
def memInv (m : AuthMem) : Prop :=
  m.isLoggedIn = true → m.user.isSome = true ∧ m.token.isSome = true

/-- Storage discipline claimed by the spec: a step either leaves the three
persisted keys unchanged, writes all three (with `isLoggedIn` set to
"true"), or removes all three. -/
def storageGroupStep (pre post : Storage) : Prop :=
  post = pre
  ∨ (∃ su tk, post = { user := some su, token := some tk, isLoggedIn := some "true" })
  ∨ post = { user := none, token := none, isLoggedIn := none }

/-- Decides whether a login outcome is a failure in the sense of the code
guard `!response.ok || !data.access_token || !data.user`, or a thrown
fetch. -/
def loginFails : LoginOutcome → Bool
  | .netError _ => true
  | .reply ok _ body => !ok || body.access_token.isNone || body.user.isNone

/-- A browser file as far as client-side validation can see it: MIME type
and byte size. -/
structure InputFile where
  type : String
  size : Nat
  deriving DecidableEq

/-- The allowed MIME types of `onFileChange` (TutorComponent.tsx line 449,
Index.tsx line 76). -/
def allowedTypes : List String := ["image/jpeg", "image/png", "application/pdf"]

/-- The 10MB size bound of `onFileChange` (TutorComponent.tsx line 455,
Index.tsx line 87). -/
def maxFileSize : Nat := 10 * 1024 * 1024

/-- Model of the JS `String.prototype.trim` used by the handlers: drops
leading and trailing whitespace characters of the underlying character
list (kernel-reducible, unlike the builtin `String.trim`). -/
def trimChars (l : List Char) : List Char :=
  ((l.dropWhile Char.isWhitespace).reverse.dropWhile Char.isWhitespace).reverse

/-- Trim on strings. -/
def jsTrim (s : String) : String := ⟨trimChars s.data⟩

/-- The two distinct client-side rejection reasons surfaced by
`onFileChange`: the "Invalid file type" toast and the "File too large"
toast. -/
inductive FileRejection where
  | invalidType
  | tooLarge
  deriving DecidableEq

/-- Abstraction of the FileReader data URL built for a preview of a
file. -/
def dataUrl (f : InputFile) : String := "data:" ++ f.type

/-- The query kinds of the explain-step follow-up. -/
inductive QueryType where
  | why
  | how
  deriving DecidableEq

/-- One numbered solution step (interface `Step`). -/
structure Step where
  step_number : Nat
  explanation : String
  deriving DecidableEq

/-- A solution result as TutorComponent stores it (interface
`Solution`). -/
structure Solution where
  original_problem : Option String
  steps : List Step
  final_answer : Option String
  error : Option String
  updated_xp : Option Nat
  deriving DecidableEq

/-- One record of the step-explanation cache (interface
`StepExplanation`). -/
structure StepEntry where
  explanation : Option String
  isLoading : Bool
  error : Option String
  queryType : Option QueryType
  deriving DecidableEq

/-- The step-explanation cache: a JS object keyed by step number,
modelled as a function from numbers to optional entries. -/
abbrev StepCache := Nat → Option StepEntry

/-- The empty cache `\x7b\x7d`. -/
def emptyCache : StepCache := fun _ => none

/-- Updating the cache at one key, leaving the rest untouched (the JS
spread update pattern of `setStepExplanations`). -/
def cacheSet (c : StepCache) (n : Nat) (e : StepEntry) : StepCache :=
  fun m => if m = n then some e else c m

/-- The JS object spread of a possibly undefined previous cache entry:
spreading `undefined` yields the record with every field undefined
(booleans read back falsy). -/
def spreadEntry : Option StepEntry → StepEntry
  | some e => e
  | none => { explanation := none, isLoading := false, error := none, queryType := none }

/-- User levels of the XP system. -/
inductive UserLevel where
  | bronze
  | silver
  | gold
  | platinum
  deriving DecidableEq

/-- The `calculateLevel` helper (TutorComponent.tsx lines 119-124). -/
def calculateLevel (xp : Nat) : UserLevel :=
  if xp < 100 then .bronze
  else if xp < 500 then .silver
  else if xp < 1500 then .gold
  else .platinum

/-- The HTTP requests an orchestration handler can issue. -/
inductive Request where
  | uploadImage (f : InputFile)
  | solveText (question_text : String)
  | explainStepReq (problem_text : String) (all_steps : List Step)
      (step_number_to_explain : Nat) (query_type : QueryType)
  deriving DecidableEq

/-- Whether a request targets the processing (`/solve-text`) endpoint. -/
def Request.isSolve : Request → Bool
  | .solveText _ => true
  | _ => false

/-- The claim-relevant slice of the TutorComponent state hooks
(TutorComponent.tsx lines 177-227). -/
structure TutorState where
  problemInput : String
  solution : Option Solution
  stepExplanations : StepCache
  isLoadingSolution : Bool
  solutionError : Option String
  selectedFile : Option InputFile
  imagePreviewUrl : Option String
  loadingOcr : Bool
  ocrApiError : Option String
  currentUserXP : Nat
  currentUserLevel : UserLevel

/-- The `resetUploadState` helper (TutorComponent.tsx lines 310-318). -/
def resetUploadState (s : TutorState) : TutorState :=
  { s with
    selectedFile := none, imagePreviewUrl := none,
    loadingOcr := false, ocrApiError := none }

/-- The XP update performed after a successful solve or explain reply
carrying `updated_xp`. -/
def applyXp (s : TutorState) (xp : Option Nat) : TutorState :=
  match xp with
  | some x => { s with currentUserXP := x, currentUserLevel := calculateLevel x }
  | none => s

/-- Result of running a file-change handler: the new state, the
client-side rejection reason if any, and the requests issued (always
none). -/
structure FileChangeRun where
  final : TutorState
  rejection : Option FileRejection
  requests : List Request

/-- The `onFileChange` handler of TutorComponent (lines 443-477): no file
resets the upload state; a disallowed MIME type or an oversized file is
rejected client-side with its own reason and the upload state is reset; an
accepted file clears the previous solution, explanations and errors, and
becomes the selected file (with a preview for non-PDF files).  No branch
issues a request. -/
def onFileChange (s : TutorState) (f : Option InputFile) : FileChangeRun :=
  match f with
  | none => { final := resetUploadState s, rejection := none, requests := [] }
  | some f =>
    if f.type ∈ allowedTypes then
      if f.size > maxFileSize then
        { final := resetUploadState s, rejection := some .tooLarge, requests := [] }
      else
        { final :=
            { s with
              solution := none, stepExplanations := emptyCache,
              solutionError := none, ocrApiError := none, selectedFile := some f,
              imagePreviewUrl := if f.type = "application/pdf" then none else some (dataUrl f) }
          rejection := none, requests := [] }
    else
      { final := resetUploadState s, rejection := some .invalidType, requests := [] }

/-- Parsed JSON body of an `/upload-image` response. -/
structure OcrBody where
  status : Option String
  extracted_text : Option String
  error : Option String
  detail : Option String
  deriving DecidableEq

/-- Outcome of the OCR fetch. -/
inductive OcrOutcome where
  | netError (msg : String)
  | reply (ok : Bool) (status : Nat) (body : OcrBody)
  deriving DecidableEq

/-- The message thrown on a non-ok `/upload-image` reply
(TutorComponent.tsx line 520, Index.tsx line 150): `data.detail`, else
`data.error`, else the generic text. -/
def ocrHttpErrorMsg (status : Nat) (b : OcrBody) : String :=
  match b.detail with
  | some d => d
  | none =>
    match b.error with
    | some e => e
    | none => "HTTP error! status: " ++ toString status

/-- Result of one run of an extraction handler: the state at the moment
the request goes out (`sent`), the state after the outcome is handled
(`final`), and the requests issued. -/
structure ExtractRun where
  sent : TutorState
  final : TutorState
  requests : List Request

/-- The `extractQuestion` handler of TutorComponent (lines 495-545).
With no selected file it only shows a toast.  Otherwise it synchronously
sets loading, clears the problem input, the solution, the explanation
cache and both error fields, and issues exactly one `/upload-image`
request.  On a success-shaped reply it puts the extracted text into the
problem input and resets the upload state; on every failure it records the
OCR error and clears the problem input again. -/
def extractQuestion (s : TutorState) (o : OcrOutcome) : ExtractRun :=
  match s.selectedFile with
  | none => { sent := s, final := s, requests := [] }
  | some f =>
    let s1 : TutorState :=
      { s with
        loadingOcr := true, problemInput := "", solution := none,
        stepExplanations := emptyCache, solutionError := none, ocrApiError := none }
    let failWith : String → TutorState := fun msg =>
      { s1 with ocrApiError := some msg, problemInput := "", loadingOcr := false }
    let runWith : TutorState → ExtractRun := fun fin =>
      { sent := s1, final := fin, requests := [.uploadImage f] }
    match o with
    | .netError msg =>
      runWith (failWith (if msg = "" then "Failed to connect to the OCR service." else msg))
    | .reply ok status body =>
      if ok then
        if body.status = some "success" ∧ body.extracted_text.isSome then
          runWith (resetUploadState
            { s1 with problemInput := body.extracted_text.getD "", loadingOcr := false })
        else
          runWith (failWith (match body.error with
            | some e => e
            | none => "OCR failed. No text extracted."))
      else runWith (failWith (ocrHttpErrorMsg status body))

/-- Parsed JSON body of a `/solve-text` response, with the `detail` field
a non-ok reply may carry.  The FastAPI `detail` payload is abstracted as a
string, with its `JSON.stringify` rendering modelled by quoting. -/
structure SolveBody where
  original_problem : Option String
  steps : List Step
  final_answer : Option String
  error : Option String
  updated_xp : Option Nat
  detail : Option String
  deriving DecidableEq

/-- The solution value stored from a solve reply body. -/
def SolveBody.toSolution (b : SolveBody) : Solution :=
  { original_problem := b.original_problem, steps := b.steps,
    final_answer := b.final_answer, error := b.error, updated_xp := b.updated_xp }

/-- Outcome of the solve fetch. -/
inductive SolveOutcome where
  | netError (msg : String)
  | reply (ok : Bool) (status : Nat) (body : SolveBody)
  deriving DecidableEq

/-- Model of `JSON.stringify` applied to the abstracted `detail`
payload. -/
def stringifyDetail (d : String) : String := "\"" ++ d ++ "\""

/-- The message thrown on a non-ok `/solve-text` reply
(TutorComponent.tsx line 347, Index.tsx line 207): `errorPayload.error`,
else the stringified `errorPayload.detail`, else the generic text.  Note
the order: the `error` field wins over `detail` here. -/
def solveHttpErrorMsg (status : Nat) (b : SolveBody) : String :=
  match b.error with
  | some e => e
  | none =>
    match b.detail with
    | some d => stringifyDetail d
    | none => "HTTP error! status: " ++ toString status

/-- Result of one run of a solve handler. -/
structure SolveRun where
  sent : TutorState
  final : TutorState
  requests : List Request

/-- The `handleGenerateSolution` handler of TutorComponent (lines
321-384).  An all-whitespace problem input only shows a toast.  Otherwise
it synchronously sets loading, discards the previous solution, clears the
whole explanation cache and the solution error, and issues exactly one
`/solve-text` request.  An ok reply without an application-level `error`
field stores the reply as the new solution (and applies the XP update);
every failure stores a solver error message and leaves the solution
null. -/
def handleGenerateSolution (s : TutorState) (o : SolveOutcome) : SolveRun :=
  if jsTrim s.problemInput = "" then { sent := s, final := s, requests := [] }
  else
    let s1 : TutorState :=
      { s with
        isLoadingSolution := true, solution := none,
        stepExplanations := emptyCache, solutionError := none }
    let failWith : String → TutorState := fun msg =>
      { s1 with
        solutionError := some ("Solver Error: " ++ msg), solution := none,
        isLoadingSolution := false }
    let runWith : TutorState → SolveRun := fun fin =>
      { sent := s1, final := fin, requests := [.solveText s.problemInput] }
    match o with
    | .netError msg =>
      runWith (failWith (if msg = "" then "Failed to connect to the solver service." else msg))
    | .reply ok status body =>
      if ok then
        match body.error with
        | some e => runWith (failWith e)
        | none =>
          runWith { applyXp { s1 with solution := some body.toSolution } body.updated_xp with
            isLoadingSolution := false }
      else runWith (failWith (solveHttpErrorMsg status body))

/-- The solution value `handleGenerateSolution` ends with, as a function
of the fetch outcome alone. -/
def solveResultOf : SolveOutcome → Option Solution
  | .reply true _ body => if body.error = none then some body.toSolution else none
  | _ => none

/-- Parsed JSON body of an `/explain-step` response. -/
structure ExplainBody where
  explanation : Option String
  error : Option String
  detail : Option String
  updated_xp : Option Nat
  deriving DecidableEq

/-- Outcome of the explain-step fetch. -/
inductive ExplainOutcome where
  | netError (msg : String)
  | reply (ok : Bool) (status : Nat) (body : ExplainBody)
  deriving DecidableEq

/-- The message thrown on a failed `/explain-step` reply
(TutorComponent.tsx line 411): `data.error`, else `data.detail`, else the
generic text.  Again `error` wins over `detail`. -/
def explainErrorMsg (status : Nat) (b : ExplainBody) : String :=
  match b.error with
  | some e => e
  | none =>
    match b.detail with
    | some d => d
    | none => "HTTP error! status: " ++ toString status

/-- Result of one run of the explain-step handler: the state right after
the loading entry is written (`started`), the state after the outcome is
handled (`final`), and the requests issued. -/
structure ExplainRun where
  started : TutorState
  final : TutorState
  requests : List Request

/-- The `handleExplainStep` handler of TutorComponent (lines 387-440).
With no solution it is a no-op.  Otherwise it overwrites only the cache
entry of the requested step with a loading record (spreading the previous
entry), issues exactly one `/explain-step` request, and on completion
again overwrites only that entry: with the explanation text on success
(plus the XP update), or with the error message on failure. -/
def handleExplainStep (s : TutorState) (n : Nat) (q : QueryType) (o : ExplainOutcome) :
    ExplainRun :=
  match s.solution with
  | none => { started := s, final := s, requests := [] }
  | some sol =>
    let e0 := spreadEntry (s.stepExplanations n)
    let s1 : TutorState :=
      { s with
        stepExplanations :=
          cacheSet s.stepExplanations n
            { e0 with isLoading := true, error := none, queryType := some q } }
    let req : Request :=
      .explainStepReq (sol.original_problem.getD s.problemInput) sol.steps n q
    let failWith : String → TutorState := fun msg =>
      { s1 with
        stepExplanations :=
          cacheSet s1.stepExplanations n
            { spreadEntry (s1.stepExplanations n) with
              isLoading := false, error := some msg } }
    match o with
    | .netError msg =>
      { started := s1,
        final := failWith (if msg = "" then "Failed to get explanation." else msg),
        requests := [req] }
    | .reply ok status body =>
      if ok ∧ body.error = none then
        let s2 : TutorState :=
          { s1 with
            stepExplanations :=
              cacheSet s1.stepExplanations n
                { spreadEntry (s1.stepExplanations n) with
                  explanation := body.explanation, isLoading := false, error := none } }
        { started := s1, final := applyXp s2 body.updated_xp, requests := [req] }
      else
        { started := s1, final := failWith (explainErrorMsg status body), requests := [req] }

/-- The user-triggered events of one TutorComponent orchestration
instance, each carrying the outcome of the fetch it may perform. -/
inductive UIEvent where
  | chooseFile (f : Option InputFile)
  | clickExtract (o : OcrOutcome)
  | clickSolve (o : SolveOutcome)
  | clickExplain (n : Nat) (q : QueryType) (o : ExplainOutcome)

/-- Final state and issued requests of one event. -/
structure EventRun where
  final : TutorState
  requests : List Request

/-- Dispatch of one user event to its TutorComponent handler. -/
def dispatch (s : TutorState) : UIEvent → EventRun
  | .chooseFile f =>
    let r := onFileChange s f
    { final := r.final, requests := r.requests }
  | .clickExtract o =>
    let r := extractQuestion s o
    { final := r.final, requests := r.requests }
  | .clickSolve o =>
    let r := handleGenerateSolution s o
    { final := r.final, requests := r.requests }
  | .clickExplain n q o =>
    let r := handleExplainStep s n q o
    { final := r.final, requests := r.requests }

/-- The problem-input text `extractQuestion` ends with, as a function of
the fetch outcome alone. -/
def ocrFinalText : OcrOutcome → String
  | .reply true _ body =>
    if body.status = some "success" ∧ body.extracted_text.isSome then
      body.extracted_text.getD ""
    else ""
  | _ => ""

/-- Parsed JSON body of a `/solve-text` response as the Index page types
it (interface `SolveResult` in Index.tsx), plus the `detail` field a
non-ok reply may carry.  The untyped `solution` display field
(`string[] | string | null`) is not inspected by any code path this file
covers and is left out of the record. -/
structure IndexSolveBody where
  original_problem : Option String
  steps : List Step
  explanation : Option String
  final_answer : Option String
  error : Option String
  detail : Option String
  deriving DecidableEq

/-- Outcome of the Index page solve fetch. -/
inductive IndexSolveOutcome where
  | netError (msg : String)
  | reply (ok : Bool) (status : Nat) (body : IndexSolveBody)
  deriving DecidableEq

/-- The message thrown on a non-ok Index solve reply (Index.tsx line 207):
`errorPayload.error`, else the stringified `errorPayload.detail`, else the
generic text.  Same order as the TutorComponent solve path: `error` wins
over `detail`. -/
def idxSolveHttpErrorMsg (status : Nat) (b : IndexSolveBody) : String :=
  match b.error with
  | some e => e
  | none =>
    match b.detail with
    | some d => stringifyDetail d
    | none => "HTTP error! status: " ++ toString status

/-- The state hooks of the Index page (Index.tsx lines 42-48). -/
structure IndexState where
  selectedFile : Option InputFile
  imagePreviewUrl : Option String
  ocrText : String
  loadingOcr : Bool
  loadingSolve : Bool
  solveResult : Option IndexSolveBody
  apiError : Option String
  deriving DecidableEq

/-- The `resetState` helper of the Index page (Index.tsx lines 53-66):
optionally clears the file and preview, and always clears the text, the
result, both loading flags, and the error, in one synchronous block. -/
def resetState (s : IndexState) (clearFile : Bool) : IndexState :=
  let s1 := if clearFile then { s with selectedFile := none, imagePreviewUrl := none } else s
  { s1 with
    ocrText := "", solveResult := none, loadingOcr := false,
    loadingSolve := false, apiError := none }

/-- The "Reset / Try Another Problem" action (Index.tsx lines 236-238):
`resetState(true)`. -/
def tryAnother (s : IndexState) : IndexState := resetState s true

/-- Result of running the Index file-change handler. -/
structure IndexFileRun where
  final : IndexState
  rejection : Option FileRejection
  requests : List Request

/-- The `onFileChange` handler of the Index page (Index.tsx lines 69-103):
same MIME set and 10MB bound as TutorComponent; rejection resets the whole
state; an accepted file clears the results but keeps the file, and a
preview is read for every accepted file.  No branch issues a request. -/
def idxOnFileChange (s : IndexState) (f : Option InputFile) : IndexFileRun :=
  match f with
  | none => { final := resetState s true, rejection := none, requests := [] }
  | some f =>
    if f.type ∈ allowedTypes then
      if f.size > maxFileSize then
        { final := resetState s true, rejection := some .tooLarge, requests := [] }
      else
        { final :=
            { resetState s false with
              selectedFile := some f, imagePreviewUrl := some (dataUrl f) }
          rejection := none, requests := [] }
    else
      { final := resetState s true, rejection := some .invalidType, requests := [] }

/-- Result of one run of an Index network handler. -/
structure IndexRun where
  sent : IndexState
  final : IndexState
  requests : List Request

/-- The `extractQuestion` handler of the Index page (Index.tsx lines
124-176): with no selected file it only shows a toast; otherwise it sets
loading, clears the text, result and error, and issues exactly one
`/upload-image` request.  Success places the extracted text in `ocrText`
(keeping the file and preview); every failure records an OCR error and
clears the text again. -/
def idxExtractQuestion (s : IndexState) (o : OcrOutcome) : IndexRun :=
  match s.selectedFile with
  | none => { sent := s, final := s, requests := [] }
  | some f =>
    let s1 : IndexState :=
      { s with loadingOcr := true, ocrText := "", solveResult := none, apiError := none }
    let failWith : String → IndexState := fun msg =>
      { s1 with apiError := some ("OCR Error: " ++ msg), ocrText := "", loadingOcr := false }
    let runWith : IndexState → IndexRun := fun fin =>
      { sent := s1, final := fin, requests := [.uploadImage f] }
    match o with
    | .netError msg =>
      runWith (failWith (if msg = "" then "Failed to connect to the OCR service." else msg))
    | .reply ok status body =>
      if ok then
        if body.status = some "success" ∧ body.extracted_text.isSome then
          runWith { s1 with ocrText := body.extracted_text.getD "", loadingOcr := false }
        else
          runWith (failWith (match body.error with
            | some e => e
            | none => "OCR failed. No text extracted."))
      else runWith (failWith (ocrHttpErrorMsg status body))

/-- The `solveQuestion` handler of the Index page (Index.tsx lines
179-233): an all-whitespace text only shows a toast; otherwise it sets
loading, clears the previous result and error, and issues exactly one
`/solve-text` request carrying the trimmed text.  An ok reply without an
application-level `error` becomes the new result; every failure records a
solver error and leaves the result null. -/
def idxSolveQuestion (s : IndexState) (o : IndexSolveOutcome) : IndexRun :=
  if jsTrim s.ocrText = "" then { sent := s, final := s, requests := [] }
  else
    let s1 : IndexState :=
      { s with loadingSolve := true, solveResult := none, apiError := none }
    let failWith : String → IndexState := fun msg =>
      { s1 with
        apiError := some ("Solver Error: " ++ msg), solveResult := none,
        loadingSolve := false }
    let runWith : IndexState → IndexRun := fun fin =>
      { sent := s1, final := fin, requests := [.solveText (jsTrim s.ocrText)] }
    match o with
    | .netError msg =>
      runWith (failWith (if msg = "" then "Failed to connect to the solver service." else msg))
    | .reply ok status body =>
      if ok then
        match body.error with
        | some e => runWith (failWith e)
        | none => runWith { s1 with solveResult := some body, loadingSolve := false }
      else runWith (failWith (idxSolveHttpErrorMsg status body))

/-- Modelled from the spec wording of section 4.2 ("a server-provided
`detail`, a server-provided `error`, else a generic HTTP-status message"):
the preference order the claim asserts, to be compared with the message
builders translated from the code. -/
def claimedPreferenceMsg (detail err : Option String) (generic : String) : String :=
  match detail with
  | some d => d
  | none =>
    match err with
    | some e => e
    | none => generic

/-- The order the solve and explain-step paths actually use: the `error`
field first, then the (possibly stringified) `detail` field, else the
generic message. -/
def errorFirstMsg (err detail : Option String) (render : String → String)
    (generic : String) : String :=
  match err with
  | some e => e
  | none =>
    match detail with
    | some d => render d
    | none => generic

/-! Concrete inputs used by counterexamples and witnesses. -/

/-- Sample user. -/
def demoUser : User := { name := "Ada", email := "ada@example.com" }

/-- Storage whose user key holds the literal string "null". -/
def nullUserStorage : Storage :=
  { user := some .nullLit, token := some "tok", isLoggedIn := some "true" }

/-- Storage with user and token present but no `isLoggedIn` key. -/
def noFlagStorage : Storage :=
  { user := some (.fromUser demoUser), token := some "tok", isLoggedIn := none }

/-- Storage with `isLoggedIn` set to "true" but an unparsable user
value. -/
def corruptStorage : Storage :=
  { user := some (.unparsable 0), token := some "tok", isLoggedIn := some "true" }

/-- A login reply body missing the access token. -/
def noTokenBody : LoginBody :=
  { access_token := none, user := some demoUser, detail := none, error := none }

/-- The TutorComponent initial state (the `useState` defaults). -/
def tutorState0 : TutorState :=
  { problemInput := "", solution := none, stepExplanations := emptyCache,
    isLoadingSolution := false, solutionError := none, selectedFile := none,
    imagePreviewUrl := none, loadingOcr := false, ocrApiError := none,
    currentUserXP := 0, currentUserLevel := .bronze }

/-- Tutor state with a typed problem. -/
def tutorSolveState : TutorState := { tutorState0 with problemInput := "2x+5=11" }

/-- The mocked steps of spec section 8, property 8. -/
def demoSteps : List Step :=
  [{ step_number := 1, explanation := "Subtract 5" },
   { step_number := 2, explanation := "Divide by 2" }]

/-- The mocked solve reply of spec section 8, property 8. -/
def demoSolveBody : SolveBody :=
  { original_problem := some "2x+5=11", steps := demoSteps,
    final_answer := some "x=3", error := none, updated_xp := none, detail := none }

/-- The stored solution of the mocked reply. -/
def demoSolution : Solution := demoSolveBody.toSolution

/-- Tutor state holding a completed solution. -/
def tutorSolvedState : TutorState := { tutorSolveState with solution := some demoSolution }

/-- A successful explain reply body. -/
def demoExplainBody : ExplainBody :=
  { explanation := some "Because both sides shrink by 5", error := none,
    detail := none, updated_xp := none }

/-- A 2MB JPEG (passes validation). -/
def jpeg2mb : InputFile := { type := "image/jpeg", size := 2 * 1024 * 1024 }

/-- A 12MB JPEG (too large). -/
def jpeg12mb : InputFile := { type := "image/jpeg", size := 12 * 1024 * 1024 }

/-- A text file (wrong MIME type). -/
def textFile : InputFile := { type := "text/plain", size := 1024 }

/-- Tutor state with typed text and a selected file, about to extract. -/
def typedState : TutorState :=
  { tutorState0 with problemInput := "typed work in progress", selectedFile := some jpeg2mb }

/-- The Index page initial state. -/
def idxState0 : IndexState :=
  { selectedFile := none, imagePreviewUrl := none, ocrText := "",
    loadingOcr := false, loadingSolve := false, solveResult := none, apiError := none }

/-- An Index solve reply body. -/
def demoIdxBody : IndexSolveBody :=
  { original_problem := some "2x+5=11", steps := demoSteps, explanation := none,
    final_answer := some "x=3", error := none, detail := none }

/-- Index state after a completed orchestration: file, preview, text and
result all populated. -/
def idxDoneState : IndexState :=
  { selectedFile := some jpeg2mb, imagePreviewUrl := some (dataUrl jpeg2mb),
    ocrText := "2x+5=11", loadingOcr := false, loadingSolve := false,
    solveResult := some demoIdxBody, apiError := none }

/-- An error reply body carrying both a detail and an error field. -/
def bothFieldsIdxBody : IndexSolveBody :=
  { original_problem := none, steps := [], explanation := none, final_answer := none,
    error := some "backend error", detail := some "validation detail" }

/-- Index state with question text, about to solve. -/
def idxStateWithText : IndexState := { idxState0 with ocrText := "2x+5=11" }

/-!  Theorems.  First a few helper lemmas shared between claims, then one
theorem (with witness or counterexample) per claim. -/

/-- Reading the cache at a key different from the updated one gives the
old entry. -/
theorem cacheSet_ne {c : StepCache} {n m : Nat} {e : StepEntry} (h : m ≠ n) :
    cacheSet c n e m = c m := by
  simp [cacheSet, h]

/-- The XP update leaves the explanation cache alone. -/
theorem applyXp_stepExplanations (s : TutorState) (xp : Option Nat) :
    (applyXp s xp).stepExplanations = s.stepExplanations := by
  cases xp <;> rfl

/-- The XP update leaves the solution alone. -/
theorem applyXp_solution (s : TutorState) (xp : Option Nat) :
    (applyXp s xp).solution = s.solution := by
  cases xp <;> rfl

/-- The cleared in-memory state satisfies the invariant. -/
theorem memInv_loggedOutMem : memInv loggedOutMem := by
  intro h
  simp [loggedOutMem] at h

/-- Login preserves the session invariant on every outcome. -/
theorem login_memInv (s : AuthState) (o : LoginOutcome) : memInv (login s o).1.mem := by
  cases o with
  | netError m => exact memInv_loggedOutMem
  | reply ok status body =>
    obtain ⟨a1, u1, d1, e1⟩ := body
    cases ok
    · exact memInv_loggedOutMem
    · cases a1 <;> cases u1 <;> first
        | exact memInv_loggedOutMem
        | (intro _; exact ⟨rfl, rfl⟩)

/-- Logout preserves the session invariant. -/
theorem logout_memInv (s : AuthState) : memInv (logout s).mem := by
  intro h
  simp [logout] at h

/-- Initialization preserves the session invariant whenever the stored
user value is not the literal "null". -/
theorem initAuth_memInv (st : Storage) (h : st.user ≠ some .nullLit) :
    memInv (initAuth st).mem := by
  obtain ⟨su, tk, lg⟩ := st
  by_cases hl : lg = some "true"
  · cases su with
    | none => simp [initAuth, hl]; exact memInv_loggedOutMem
    | some u =>
      cases tk with
      | none => simp [initAuth, hl]; exact memInv_loggedOutMem
      | some t =>
        cases u with
        | fromUser v =>
          simp only [initAuth, hl, if_pos, parseStoredUser]
          intro _; exact ⟨rfl, rfl⟩
        | nullLit => exact absurd rfl h
        | unparsable g =>
          simp only [initAuth, hl, if_pos, parseStoredUser]
          exact memInv_loggedOutMem
  · simp [initAuth, hl]; exact memInv_loggedOutMem

/-- Initialization respects the group storage discipline. -/
theorem initAuth_group (st : Storage) : storageGroupStep st (initAuth st).store := by
  obtain ⟨su, tk, lg⟩ := st
  by_cases hl : lg = some "true"
  · cases su with
    | none => left; simp [initAuth, hl]
    | some u =>
      cases tk with
      | none => left; simp [initAuth, hl]
      | some t =>
        cases u with
        | fromUser v => left; simp [initAuth, hl, parseStoredUser]
        | nullLit => left; simp [initAuth, hl, parseStoredUser]
        | unparsable g =>
          right; right
          simp [initAuth, hl, parseStoredUser, clearedAuthState]
  · left; simp [initAuth, hl]

/-- Login respects the group storage discipline. -/
theorem login_group (s : AuthState) (o : LoginOutcome) :
    storageGroupStep s.store (login s o).1.store := by
  cases o with
  | netError m => right; right; rfl
  | reply ok status body =>
    obtain ⟨a1, u1, d1, e1⟩ := body
    cases ok
    · right; right; rfl
    · cases a1 with
      | none => cases u1 <;> (right; right; rfl)
      | some t =>
        cases u1 with
        | none => right; right; rfl
        | some u => right; left; exact ⟨.fromUser u, t, rfl⟩

/-- Logout respects the group storage discipline. -/
theorem logout_group (s : AuthState) : storageGroupStep s.store (logout s).store := by
  right; right; rfl

/-- C1 counterexample: with storage holding `isLoggedIn="true"`, a token,
and the literal string "null" under the user key, `JSON.parse` succeeds
returning null, so initialization ends logged in with a null user — the
claimed invariant fails after the initialize operation. -/
theorem initAuth_nullUser_counterexample :
    (initAuth nullUserStorage).mem.isLoggedIn = true ∧
      (initAuth nullUserStorage).mem.user = none ∧
      ¬ memInv (initAuth nullUserStorage).mem := by
  refine ⟨rfl, rfl, ?_⟩
  intro hinv
  have h := (hinv rfl).1
  simp [initAuth, nullUserStorage, parseStoredUser] at h

/-- C1 (amended): login and logout preserve the invariant (logged in
implies user and token non-null) on every outcome, and initialization
preserves it whenever the stored user value is not the JSON literal
"null" (on that value `JSON.parse` succeeds returning null and the
session ends logged in with a null user).  Moreover every operation
treats the three persisted keys as a group: it leaves them unchanged,
writes all three, or removes all three — never a strict subset. -/
theorem auth_invariant_amended (st : Storage) (s : AuthState) (o : LoginOutcome)
    (h : st.user ≠ some .nullLit) :
    memInv (initAuth st).mem ∧ memInv (login s o).1.mem ∧ memInv (logout s).mem ∧
      storageGroupStep st (initAuth st).store ∧
      storageGroupStep s.store (login s o).1.store ∧
      storageGroupStep s.store (logout s).store :=
  ⟨initAuth_memInv st h, login_memInv s o, logout_memInv s,
   initAuth_group st, login_group s o, logout_group s⟩

/-- Witness for the amended C1 theorem at concrete inputs. -/
theorem auth_invariant_amended_witness :
    memInv (initAuth corruptStorage).mem ∧
      memInv (login clearedAuthState (.netError "down")).1.mem ∧
      memInv (logout clearedAuthState).mem ∧
      storageGroupStep corruptStorage (initAuth corruptStorage).store ∧
      storageGroupStep clearedAuthState.store
        (login clearedAuthState (.netError "down")).1.store ∧
      storageGroupStep clearedAuthState.store (logout clearedAuthState).store :=
  auth_invariant_amended corruptStorage clearedAuthState (.netError "down") (by decide)

/-- C2 counterexample: with user and token keys present but no
`isLoggedIn` key, initialization does not find all three keys, yet it
does not clear the persisted keys — the user key survives (the session
does end logged out). -/
theorem initAuth_missingFlag_counterexample :
    (initAuth noFlagStorage).store.user ≠ none ∧
      (initAuth noFlagStorage).store = noFlagStorage ∧
      (initAuth noFlagStorage).mem.isLoggedIn = false := by
  refine ⟨?_, rfl, rfl⟩
  intro h
  simp [initAuth, noFlagStorage] at h

/-- C2 (amended): when the three keys are not all present (or
`isLoggedIn` is not "true"), initialization leaves persistent storage
untouched and the session logged out; only when all three are present
and the stored user fails to parse does it remove all three keys, ending
fully cleared — in particular `isLoggedIn="true"` with an unparsable
user ends logged out with all three keys removed. -/
theorem initAuth_selfheal_amended (st : Storage) :
    (¬ (st.isLoggedIn = some "true" ∧ st.user.isSome = true ∧ st.token.isSome = true) →
        (initAuth st).store = st ∧ (initAuth st).mem = loggedOutMem) ∧
      (∀ su tk, st.isLoggedIn = some "true" → st.user = some su → st.token = some tk →
        parseStoredUser su = .throwErr → initAuth st = clearedAuthState) := by
  obtain ⟨su, tk, lg⟩ := st
  constructor
  · intro hne
    by_cases hl : lg = some "true"
    · cases su with
      | none => simp [initAuth, hl]
      | some u =>
        cases tk with
        | none => simp [initAuth, hl]
        | some t => exact absurd ⟨hl, rfl, rfl⟩ hne
    · simp [initAuth, hl]
  · intro su0 tk0 hl hsu htk hp
    cases hsu
    cases htk
    cases hl
    cases su0 with
    | fromUser v => simp [parseStoredUser] at hp
    | nullLit => simp [parseStoredUser] at hp
    | unparsable g => simp [initAuth, parseStoredUser]

/-- Witness for the amended C2 theorem at concrete inputs. -/
theorem initAuth_selfheal_amended_witness :
    ((initAuth noFlagStorage).store = noFlagStorage ∧
        (initAuth noFlagStorage).mem = loggedOutMem) ∧
      initAuth corruptStorage = clearedAuthState :=
  ⟨(initAuth_selfheal_amended noFlagStorage).1 (by decide),
   (initAuth_selfheal_amended corruptStorage).2 (.unparsable 0) "tok" rfl rfl rfl rfl⟩

/-- C3: every failed login outcome — network error, non-ok status,
missing access token, or missing user — ends in the fully cleared state
(the three keys removed, in-memory user and token null, logged out),
identical to the state after a completely failed request, and the
failure is re-thrown to the caller. -/
theorem login_failure_clears_all (s : AuthState) (o : LoginOutcome)
    (h : loginFails o = true) :
    (login s o).1 = clearedAuthState ∧
      (login s o).1 = (login s (.netError "network failure")).1 ∧
      ∃ msg, (login s o).2 = .error msg := by
  cases o with
  | netError m => exact ⟨rfl, rfl, m, rfl⟩
  | reply ok status body =>
    obtain ⟨a1, u1, d1, e1⟩ := body
    cases ok
    · exact ⟨rfl, rfl, loginErrorMsg status ⟨a1, u1, d1, e1⟩, rfl⟩
    · cases a1 with
      | none =>
        cases u1 <;> exact ⟨rfl, rfl, loginErrorMsg status ⟨none, _, d1, e1⟩, rfl⟩
      | some t =>
        cases u1 with
        | none => exact ⟨rfl, rfl, loginErrorMsg status ⟨some t, none, d1, e1⟩, rfl⟩
        | some u => simp [loginFails] at h

/-- Witness for C3: a 200 reply missing the access token. -/
theorem login_failure_clears_all_witness :
    (login clearedAuthState (.reply true 200 noTokenBody)).1 = clearedAuthState ∧
      (login clearedAuthState (.reply true 200 noTokenBody)).1 =
        (login clearedAuthState (.netError "network failure")).1 ∧
      ∃ msg, (login clearedAuthState (.reply true 200 noTokenBody)).2 = .error msg :=
  login_failure_clears_all clearedAuthState (.reply true 200 noTokenBody) (by decide)

/-- The tutor file-change handler issues no requests on any input. -/
theorem onFileChange_requests (s : TutorState) (f : Option InputFile) :
    (onFileChange s f).requests = [] := by
  cases f with
  | none => rfl
  | some f =>
    by_cases h1 : f.type ∈ allowedTypes
    · by_cases h2 : f.size > maxFileSize <;> simp [onFileChange, h1, h2]
    · simp [onFileChange, h1]

/-- The Index file-change handler issues no requests on any input. -/
theorem idxOnFileChange_requests (t : IndexState) (f : Option InputFile) :
    (idxOnFileChange t f).requests = [] := by
  cases f with
  | none => rfl
  | some f =>
    by_cases h1 : f.type ∈ allowedTypes
    · by_cases h2 : f.size > maxFileSize <;> simp [idxOnFileChange, h1, h2]
    · simp [idxOnFileChange, h1]

/-- The tutor extraction handler issues exactly one upload request when a
file is selected, and none otherwise, on every outcome. -/
theorem extractQuestion_requests (s : TutorState) (o : OcrOutcome) :
    (extractQuestion s o).requests =
      (match s.selectedFile with
        | none => []
        | some f => [Request.uploadImage f]) := by
  cases hf : s.selectedFile with
  | none => simp [extractQuestion, hf]
  | some f =>
    cases o with
    | netError m => simp [extractQuestion, hf]
    | reply ok status body =>
      simp only [extractQuestion, hf]
      split <;> (try split) <;> rfl

/-- The Index extraction handler issues exactly one upload request when a
file is selected, and none otherwise, on every outcome. -/
theorem idxExtractQuestion_requests (t : IndexState) (o : OcrOutcome) :
    (idxExtractQuestion t o).requests =
      (match t.selectedFile with
        | none => []
        | some f => [Request.uploadImage f]) := by
  cases hf : t.selectedFile with
  | none => simp [idxExtractQuestion, hf]
  | some f =>
    cases o with
    | netError m => simp [idxExtractQuestion, hf]
    | reply ok status body =>
      simp only [idxExtractQuestion, hf]
      split <;> (try split) <;> rfl

/-- No run of the tutor extraction handler issues a solve request. -/
theorem extractQuestion_no_solve (s : TutorState) (o : OcrOutcome) :
    ((extractQuestion s o).requests.any Request.isSolve) = false := by
  rw [extractQuestion_requests]
  cases s.selectedFile <;> simp [Request.isSolve]

/-- No run of the explain-step handler issues a solve request. -/
theorem handleExplainStep_no_solve (s : TutorState) (n : Nat) (q : QueryType)
    (o : ExplainOutcome) :
    ((handleExplainStep s n q o).requests.any Request.isSolve) = false := by
  cases hs : s.solution with
  | none => simp [handleExplainStep, hs]
  | some sol =>
    cases o with
    | netError m => simp [handleExplainStep, hs, Request.isSolve]
    | reply ok status body =>
      simp only [handleExplainStep, hs]
      split <;> simp [Request.isSolve]

/-- C4: a file whose MIME type is outside the allowed set is rejected
with the wrong-type reason, an allowed file over 10MB is rejected with
the too-large reason (the two reasons are distinct), rejections issue no
request and leave no file to extract from, while an allowed file of size
at most the bound passes validation and a subsequent extraction run
issues exactly one upload request — in both the TutorComponent and the
Index page handlers. -/
theorem file_validation_gate (s : TutorState) (t : IndexState) (f : InputFile) :
    (f.type ∉ allowedTypes →
        (onFileChange s (some f)).rejection = some FileRejection.invalidType ∧
        (onFileChange s (some f)).requests = [] ∧
        (∀ o, (extractQuestion (onFileChange s (some f)).final o).requests = []) ∧
        (idxOnFileChange t (some f)).rejection = some FileRejection.invalidType ∧
        (idxOnFileChange t (some f)).requests = [] ∧
        (∀ o, (idxExtractQuestion (idxOnFileChange t (some f)).final o).requests = [])) ∧
      (f.type ∈ allowedTypes → f.size > maxFileSize →
        (onFileChange s (some f)).rejection = some FileRejection.tooLarge ∧
        (onFileChange s (some f)).requests = [] ∧
        (∀ o, (extractQuestion (onFileChange s (some f)).final o).requests = []) ∧
        (idxOnFileChange t (some f)).rejection = some FileRejection.tooLarge ∧
        (idxOnFileChange t (some f)).requests = [] ∧
        (∀ o, (idxExtractQuestion (idxOnFileChange t (some f)).final o).requests = [])) ∧
      FileRejection.invalidType ≠ FileRejection.tooLarge ∧
      (f.type ∈ allowedTypes → f.size ≤ maxFileSize →
        (onFileChange s (some f)).rejection = none ∧
        (onFileChange s (some f)).requests = [] ∧
        (onFileChange s (some f)).final.selectedFile = some f ∧
        (∀ o, (extractQuestion (onFileChange s (some f)).final o).requests =
          [Request.uploadImage f]) ∧
        (idxOnFileChange t (some f)).rejection = none ∧
        (idxOnFileChange t (some f)).requests = [] ∧
        (∀ o, (idxExtractQuestion (idxOnFileChange t (some f)).final o).requests =
          [Request.uploadImage f])) := by
  refine ⟨?_, ?_, by decide, ?_⟩
  · intro hty
    refine ⟨by simp [onFileChange, hty], by simp [onFileChange, hty], fun o => ?_,
      by simp [idxOnFileChange, hty], by simp [idxOnFileChange, hty], fun o => ?_⟩
    · rw [extractQuestion_requests]
      simp [onFileChange, hty, resetUploadState]
    · rw [idxExtractQuestion_requests]
      simp [idxOnFileChange, hty, resetState]
  · intro hty hsz
    refine ⟨by simp [onFileChange, hty, hsz], by simp [onFileChange, hty, hsz], fun o => ?_,
      by simp [idxOnFileChange, hty, hsz], by simp [idxOnFileChange, hty, hsz], fun o => ?_⟩
    · rw [extractQuestion_requests]
      simp [onFileChange, hty, hsz, resetUploadState]
    · rw [idxExtractQuestion_requests]
      simp [idxOnFileChange, hty, hsz, resetState]
  · intro hty hle
    have hsz : ¬ (f.size > maxFileSize) := by omega
    refine ⟨by simp [onFileChange, hty, hsz], by simp [onFileChange, hty, hsz],
      by simp [onFileChange, hty, hsz], fun o => ?_,
      by simp [idxOnFileChange, hty, hsz], by simp [idxOnFileChange, hty, hsz], fun o => ?_⟩
    · rw [extractQuestion_requests]
      simp [onFileChange, hty, hsz]
    · rw [idxExtractQuestion_requests]
      simp [idxOnFileChange, hty, hsz]

/-- Witness for C4: a 12MB JPEG is rejected as too large with zero
requests, a 2MB JPEG passes and enables exactly one extraction call, in
both components. -/
theorem file_validation_gate_witness :
    ((onFileChange tutorState0 (some jpeg12mb)).rejection = some FileRejection.tooLarge ∧
        (onFileChange tutorState0 (some jpeg12mb)).requests = [] ∧
        (∀ o, (extractQuestion (onFileChange tutorState0 (some jpeg12mb)).final o).requests = []) ∧
        (idxOnFileChange idxState0 (some jpeg12mb)).rejection = some FileRejection.tooLarge ∧
        (idxOnFileChange idxState0 (some jpeg12mb)).requests = [] ∧
        (∀ o, (idxExtractQuestion (idxOnFileChange idxState0 (some jpeg12mb)).final o).requests = [])) ∧
      ((onFileChange tutorState0 (some jpeg2mb)).rejection = none ∧
        (onFileChange tutorState0 (some jpeg2mb)).requests = [] ∧
        (onFileChange tutorState0 (some jpeg2mb)).final.selectedFile = some jpeg2mb ∧
        (∀ o, (extractQuestion (onFileChange tutorState0 (some jpeg2mb)).final o).requests =
          [Request.uploadImage jpeg2mb]) ∧
        (idxOnFileChange idxState0 (some jpeg2mb)).rejection = none ∧
        (idxOnFileChange idxState0 (some jpeg2mb)).requests = [] ∧
        (∀ o, (idxExtractQuestion (idxOnFileChange idxState0 (some jpeg2mb)).final o).requests =
          [Request.uploadImage jpeg2mb])) :=
  ⟨(file_validation_gate tutorState0 idxState0 jpeg12mb).2.1 (by decide) (by decide),
   (file_validation_gate tutorState0 idxState0 jpeg2mb).2.2.2 (by decide) (by decide)⟩

/-- C5 counterexample: a non-ok solve reply carrying both a `detail` and
an `error` field produces the `error` text, not the `detail` text the
claimed preference order would give. -/
theorem solve_error_order_counterexample :
    (idxSolveQuestion idxStateWithText (.reply false 500 bothFieldsIdxBody)).final.apiError =
        some "Solver Error: backend error" ∧
      idxSolveHttpErrorMsg 500 bothFieldsIdxBody = "backend error" ∧
      claimedPreferenceMsg bothFieldsIdxBody.detail bothFieldsIdxBody.error
          ("HTTP error! status: " ++ toString (500 : Nat)) = "validation detail" ∧
      ("backend error" : String) ≠ "validation detail" := by
  refine ⟨by decide, rfl, rfl, by decide⟩

/-- C5 (amended): the login and OCR-extraction failure paths do follow
the claimed preference order (server `detail` first, then server
`error`, else the generic status message), but the solve and
explain-step failure paths use the opposite order: the `error` field
first, then the `detail` field (JSON-stringified on the solve paths),
else the generic status message. -/
theorem error_message_order_amended (status : Nat) (lb : LoginBody) (ob : OcrBody)
    (sb : SolveBody) (ib : IndexSolveBody) (eb : ExplainBody) :
    loginErrorMsg status lb = claimedPreferenceMsg lb.detail lb.error
        ("Login failed (status " ++ toString status ++ ")") ∧
      ocrHttpErrorMsg status ob = claimedPreferenceMsg ob.detail ob.error
        ("HTTP error! status: " ++ toString status) ∧
      solveHttpErrorMsg status sb = errorFirstMsg sb.error sb.detail stringifyDetail
        ("HTTP error! status: " ++ toString status) ∧
      idxSolveHttpErrorMsg status ib = errorFirstMsg ib.error ib.detail stringifyDetail
        ("HTTP error! status: " ++ toString status) ∧
      explainErrorMsg status eb = errorFirstMsg eb.error eb.detail id
        ("HTTP error! status: " ++ toString status) := by
  obtain ⟨la, lu, ld, le⟩ := lb
  obtain ⟨ost, oxt, oer, ode⟩ := ob
  obtain ⟨spr, sst, sfa, ser, sxp, sde⟩ := sb
  obtain ⟨ipr, ist, iex, ifa, ier, ide⟩ := ib
  obtain ⟨eex, eer, ede, exp2⟩ := eb
  refine ⟨?_, ?_, ?_, ?_, ?_⟩
  · cases ld <;> cases le <;> rfl
  · cases ode <;> cases oer <;> rfl
  · cases ser <;> cases sde <;> rfl
  · cases ier <;> cases ide <;> rfl
  · cases eer <;> cases ede <;> rfl

/-- C6: when a solve request actually begins (non-blank trimmed input),
the explanation cache is empty at the moment the request is issued and
still empty at completion, the final solution is a function of the reply
alone (full replacement, never a merge with the previous result), and
exactly one solve request is issued. -/
theorem solve_replaces_wholesale (s : TutorState) (o : SolveOutcome)
    (h : jsTrim s.problemInput ≠ "") :
    (∀ k, (handleGenerateSolution s o).sent.stepExplanations k = none) ∧
      (∀ k, (handleGenerateSolution s o).final.stepExplanations k = none) ∧
      (handleGenerateSolution s o).final.solution = solveResultOf o ∧
      (handleGenerateSolution s o).requests = [Request.solveText s.problemInput] := by
  cases o with
  | netError m =>
    refine ⟨fun k => ?_, fun k => ?_, ?_, ?_⟩ <;>
      simp [handleGenerateSolution, if_neg h, solveResultOf, emptyCache]
  | reply ok status body =>
    cases ok
    · refine ⟨fun k => ?_, fun k => ?_, ?_, ?_⟩ <;>
        simp [handleGenerateSolution, if_neg h, solveResultOf, emptyCache]
    · cases herr : body.error with
      | some e =>
        refine ⟨fun k => ?_, fun k => ?_, ?_, ?_⟩ <;>
          simp [handleGenerateSolution, if_neg h, herr, solveResultOf, emptyCache]
      | none =>
        refine ⟨fun k => ?_, fun k => ?_, ?_, ?_⟩ <;>
          simp [handleGenerateSolution, if_neg h, herr, solveResultOf,
            applyXp_stepExplanations, applyXp_solution, emptyCache]

/-- Witness for C6 at the mocked solve reply of spec section 8. -/
theorem solve_replaces_wholesale_witness :
    (∀ k, (handleGenerateSolution tutorSolveState
        (.reply true 200 demoSolveBody)).sent.stepExplanations k = none) ∧
      (∀ k, (handleGenerateSolution tutorSolveState
        (.reply true 200 demoSolveBody)).final.stepExplanations k = none) ∧
      (handleGenerateSolution tutorSolveState (.reply true 200 demoSolveBody)).final.solution =
        solveResultOf (.reply true 200 demoSolveBody) ∧
      (handleGenerateSolution tutorSolveState (.reply true 200 demoSolveBody)).requests =
        [Request.solveText tutorSolveState.problemInput] :=
  solve_replaces_wholesale tutorSolveState (.reply true 200 demoSolveBody) (by decide)

/-- C7: an explain-step run for step `n` — at its start, on success and
on failure — modifies only the cache entry keyed by `n`; the entry of
every other step is unchanged at both observation points. -/
theorem explain_step_frame (s : TutorState) (n m : Nat) (q : QueryType)
    (o : ExplainOutcome) (h : m ≠ n) :
    (handleExplainStep s n q o).started.stepExplanations m = s.stepExplanations m ∧
      (handleExplainStep s n q o).final.stepExplanations m = s.stepExplanations m := by
  cases hs : s.solution with
  | none => simp [handleExplainStep, hs]
  | some sol =>
    cases o with
    | netError msg =>
      constructor <;> simp [handleExplainStep, hs, cacheSet_ne h]
    | reply ok status body =>
      by_cases hc : (ok = true ∧ body.error = none)
      · constructor <;>
          simp [handleExplainStep, hs, if_pos hc, applyXp_stepExplanations, cacheSet_ne h]
      · constructor <;>
          simp [handleExplainStep, hs, if_neg hc, cacheSet_ne h]

/-- Witness for C7: explaining step 2 leaves the entry of step 1
untouched. -/
theorem explain_step_frame_witness :
    ((1 : Nat) ≠ 2) ∧
      ((handleExplainStep tutorSolvedState 2 .why
          (.reply true 200 demoExplainBody)).started.stepExplanations 1 =
          tutorSolvedState.stepExplanations 1 ∧
        (handleExplainStep tutorSolvedState 2 .why
          (.reply true 200 demoExplainBody)).final.stepExplanations 1 =
          tutorSolvedState.stepExplanations 1) :=
  ⟨by decide,
   explain_step_frame tutorSolvedState 2 1 .why (.reply true 200 demoExplainBody) (by decide)⟩

/-- C8: if a user event of the tutor screen issues a request to the
processing endpoint, that event is the explicit solve click; no run of
the extraction handler, on any outcome, issues a solve request. -/
theorem extraction_never_autosolves (s : TutorState) (ev : UIEvent)
    (h : ((dispatch s ev).requests.any Request.isSolve) = true) :
    (∃ o, ev = UIEvent.clickSolve o) ∧
      ∀ o, ((extractQuestion s o).requests.any Request.isSolve) = false := by
  refine ⟨?_, fun o => extractQuestion_no_solve s o⟩
  cases ev with
  | chooseFile f => simp [dispatch, onFileChange_requests] at h
  | clickExtract o => simp [dispatch, extractQuestion_no_solve] at h
  | clickSolve o => exact ⟨o, rfl⟩
  | clickExplain n q o => simp [dispatch, handleExplainStep_no_solve] at h

/-- Witness for C8: the explicit solve click does issue a solve
request. -/
theorem extraction_never_autosolves_witness :
    ((dispatch tutorSolveState (.clickSolve (.netError "down"))).requests.any
        Request.isSolve = true) ∧
      ((∃ o, (UIEvent.clickSolve (SolveOutcome.netError "down") : UIEvent) =
          UIEvent.clickSolve o) ∧
        ∀ o, ((extractQuestion tutorSolveState o).requests.any Request.isSolve) = false) :=
  ⟨by decide,
   extraction_never_autosolves tutorSolveState (.clickSolve (.netError "down")) (by decide)⟩

/-- C9: from any completed orchestration (non-null result, non-empty
text, populated preview), the reset action simultaneously empties the
input text and clears preview, result, error, file and both loading
flags — no field is retained. -/
theorem reset_atomic (s : IndexState) (h1 : s.solveResult.isSome = true)
    (h2 : s.ocrText ≠ "") (h3 : s.imagePreviewUrl.isSome = true) :
    (tryAnother s).ocrText = "" ∧ (tryAnother s).imagePreviewUrl = none ∧
      (tryAnother s).solveResult = none ∧ (tryAnother s).apiError = none ∧
      (tryAnother s).selectedFile = none ∧ (tryAnother s).loadingOcr = false ∧
      (tryAnother s).loadingSolve = false :=
  ⟨rfl, rfl, rfl, rfl, rfl, rfl, rfl⟩

/-- Witness for C9 at a concrete completed state. -/
theorem reset_atomic_witness :
    (tryAnother idxDoneState).ocrText = "" ∧
      (tryAnother idxDoneState).imagePreviewUrl = none ∧
      (tryAnother idxDoneState).solveResult = none ∧
      (tryAnother idxDoneState).apiError = none ∧
      (tryAnother idxDoneState).selectedFile = none ∧
      (tryAnother idxDoneState).loadingOcr = false ∧
      (tryAnother idxDoneState).loadingSolve = false :=
  reset_atomic idxDoneState (by decide) (by decide) (by decide)

/-- C10: with a file selected, the tutor extraction handler blanks the
editable problem input before the request is sent, and the final problem
input is a function of the fetch outcome alone — empty on every failure,
the extracted text on success — so any text the user had typed is lost
regardless of the outcome. -/
theorem extract_discards_typed_input (s : TutorState) (o : OcrOutcome)
    (h : s.selectedFile.isSome = true) :
    (extractQuestion s o).sent.problemInput = "" ∧
      (extractQuestion s o).final.problemInput = ocrFinalText o := by
  cases hf : s.selectedFile with
  | none => rw [hf] at h; simp at h
  | some f =>
    cases o with
    | netError m => constructor <;> simp [extractQuestion, hf, ocrFinalText]
    | reply ok status body =>
      cases ok
      · constructor <;> simp [extractQuestion, hf, ocrFinalText]
      · by_cases hc : (body.status = some "success" ∧ body.extracted_text.isSome = true)
        · constructor <;>
            simp [extractQuestion, hf, ocrFinalText, if_pos hc, resetUploadState]
        · constructor <;>
            simp [extractQuestion, hf, ocrFinalText, if_neg hc]

/-- Witness for C10: typed text is erased when extraction starts and
stays erased on a failed extraction. -/
theorem extract_discards_typed_input_witness :
    typedState.problemInput = "typed work in progress" ∧
      ((extractQuestion typedState (.netError "down")).sent.problemInput = "" ∧
        (extractQuestion typedState (.netError "down")).final.problemInput =
          ocrFinalText (.netError "down")) :=
  ⟨rfl, extract_discards_typed_input typedState (.netError "down") (by decide)⟩

end AITutor

